import Mathlib

/-!
Verification of the KTW scraper core (`src/app.py`) against its specification.

The Python code is shallowly embedded: Python `float` values are modelled as
exact decimal numbers (`Dec`, an integer numerator over a power-of-ten
denominator), the dynamically typed Python return values of `apply_discount` as
the sum type `PyVal` (a string or a float), HTML pages as already-extracted
structured data (`StockTable`, `SearchInfo`), and network effects as an
explicit `FetchOutcome` argument.  Python `round(x, 2)` is modelled as exact
round-half-to-even at two decimal places, and `str()` of a float as the
decimal rendering of its exact value.
-/

namespace KTW

/-- An exact decimal number `num / 10 ^ exp`, the model of a Python `float`
produced by the decimal price pipeline. -/
structure Dec where
  num : Int
  exp : Nat
deriving DecidableEq, Repr

/-- Product of two decimals (`num / 10^exp` representation multiplies
componentwise). -/
def Dec.mul (a b : Dec) : Dec := ⟨a.num * b.num, a.exp + b.exp⟩

/-- A Python runtime value as returned by `apply_discount`: either a `str`
or a `float`. -/
inductive PyVal where
  | str (s : String) : PyVal
  | float (d : Dec) : PyVal
deriving DecidableEq, Repr

/-- Is this Python value a string? -/
def PyVal.isStr : PyVal → Bool
  | PyVal.str _ => true
  | PyVal.float _ => false

/-- The Python float literal `0.0`. -/
def float0 : Dec := ⟨0, 1⟩

/-- All characters are decimal digits. -/
def allDigits (l : List Char) : Bool := l.all Char.isDigit

/-- Value of a list of decimal digit characters. -/
def digitsToNat (l : List Char) : Nat :=
  l.foldl (fun a c => a * 10 + (c.toNat - 48)) 0

/-- Strip leading and trailing whitespace from a character list
(Python `str.strip()` with no argument). -/
def trimChars (l : List Char) : List Char :=
  ((l.dropWhile Char.isWhitespace).reverse.dropWhile Char.isWhitespace).reverse

/-- Python `str.strip()`. -/
def pyStrip (s : String) : String := String.mk (trimChars s.data)

/-- Python `str.lower()` (ASCII case mapping suffices for brand names). -/
def pyLower (s : String) : String := String.mk (s.data.map Char.toLower)

/-- Does `pat` occur at the head of `l`? -/
def startsWithChars : List Char → List Char → Bool
  | [], _ => true
  | _ :: _, [] => false
  | a :: as, b :: bs => a = b && startsWithChars as bs

/-- If `pat` occurs at the head of `l`, the remainder after it. -/
def dropMatch : List Char → List Char → Option (List Char)
  | [], l => some l
  | _ :: _, [] => none
  | p :: ps, c :: cs => if p = c then dropMatch ps cs else none

/-- Does `pat` occur somewhere in `l` (Python `pat in l`)? -/
def occursIn (pat : List Char) : List Char → Bool
  | [] => startsWithChars pat []
  | c :: cs => startsWithChars pat (c :: cs) || occursIn pat cs

/-- Left-to-right removal of every (non-overlapping) occurrence of `pat`,
i.e. Python `s.replace(pat, '')` for a non-empty `pat`.  The `Nat` fuel is
instantiated with the length of the scanned list, which suffices. -/
def removeAllFuel (pat : List Char) : Nat → List Char → List Char
  | _, [] => []
  | 0, l => l
  | Nat.succ f, c :: cs =>
    match dropMatch pat (c :: cs) with
    | some rest => removeAllFuel pat f rest
    | none => c :: removeAllFuel pat f cs

/-- Python `s.replace(pat, '')` for a non-empty pattern. -/
def pyRemove (pat s : String) : String :=
  String.mk (removeAllFuel pat.data s.data.length s.data)

/-- Leading sign of a numeric literal: `(isNegative, remainder)`. -/
def parseSign : List Char → Bool × List Char
  | '+' :: r => (false, r)
  | '-' :: r => (true, r)
  | r => (false, r)

/-- The mantissa of a Python float literal: digits with an optional single
decimal point, at least one digit in total. -/
def parseMantissa (l : List Char) : Option Dec :=
  let ip := l.takeWhile (fun c => c ≠ '.')
  match l.dropWhile (fun c => c ≠ '.') with
  | [] =>
    if !ip.isEmpty && allDigits ip then some ⟨(digitsToNat ip : Int), 0⟩ else none
  | _ :: frac =>
    if allDigits ip && allDigits frac && (!ip.isEmpty || !frac.isEmpty) then
      some ⟨(digitsToNat ip * 10 ^ frac.length + digitsToNat frac : Int), frac.length⟩
    else none

/-- Split a float literal at its exponent marker `e`/`E`, if any. -/
def splitExp (l : List Char) : List Char × Option (List Char) :=
  (l.takeWhile (fun c => c ≠ 'e' && c ≠ 'E'),
   match l.dropWhile (fun c => c ≠ 'e' && c ≠ 'E') with
   | [] => none
   | _ :: ex => some ex)

/-- Scale a decimal by `10 ^ e` for a signed exponent `e`. -/
def applyExp (d : Dec) (neg : Bool) (e : Nat) : Dec :=
  if neg then ⟨d.num, d.exp + e⟩ else ⟨d.num * 10 ^ e, d.exp⟩

/-- Python `float(s)` on the common decimal grammar:
optional surrounding whitespace, optional sign, digits with an optional
decimal point, optional decimal exponent.  `none` models `ValueError`. -/
def pyFloatOfString (s : String) : Option Dec :=
  let l := trimChars s.data
  let sg := parseSign l
  let me := splitExp sg.2
  match parseMantissa me.1 with
  | none => none
  | some m =>
    match me.2 with
    | none => some (if sg.1 then ⟨-m.num, m.exp⟩ else m)
    | some ex =>
      let es := parseSign ex
      if !es.2.isEmpty && allDigits es.2 then
        let v := applyExp m es.1 (digitsToNat es.2)
        some (if sg.1 then ⟨-v.num, v.exp⟩ else v)
      else none

/-- Python `int(s)`: optional surrounding whitespace, optional sign,
a non-empty run of digits.  `none` models `ValueError`. -/
def pyParseInt (s : String) : Option Int :=
  let l := trimChars s.data
  let sg := parseSign l
  if !sg.2.isEmpty && allDigits sg.2 then
    some (if sg.1 then -(digitsToNat sg.2 : Int) else (digitsToNat sg.2 : Int))
  else none

/-- Round-half-to-even of the quotient `a / b` for a positive divisor `b`
(the tie-breaking rule of the Python built-in `round`). -/
def roundHalfEvenDiv (a : Int) (b : Nat) : Int :=
  let f := Int.fdiv a b
  let r := a - f * b
  if 2 * r < b then f
  else if 2 * r > b then f + 1
  else if f % 2 = 0 then f else f + 1

/-- The exact value of a decimal, in hundredths, rounded half-to-even. -/
def hundredths (d : Dec) : Int :=
  if d.exp ≤ 2 then d.num * 10 ^ (2 - d.exp)
  else roundHalfEvenDiv d.num (10 ^ (d.exp - 2))

/-- Python `round(d, 2)` on the exact value. -/
def pyRound2 (d : Dec) : Dec := ⟨hundredths d, 2⟩

/-- Decimal digit string of a natural number (fuel-driven). -/
def natDigitsAux : Nat → Nat → List Char
  | 0, _ => []
  | Nat.succ f, n =>
    if n < 10 then [Char.ofNat (48 + n)]
    else natDigitsAux f (n / 10) ++ [Char.ofNat (48 + n % 10)]

/-- Decimal rendering of a natural number. -/
def natToStr (n : Nat) : String := String.mk (natDigitsAux (n + 1) n)

/-- Left-pad a digit list with zeros to length `e`. -/
def padLeftZeros (e : Nat) (l : List Char) : List Char :=
  List.replicate (e - l.length) '0' ++ l

/-- Remove trailing `'0'` characters. -/
def trimTrailingZeros (l : List Char) : List Char :=
  (l.reverse.dropWhile (fun c => c = '0')).reverse

/-- Python `str()` of a float holding an exact decimal: sign, integer part,
a dot, and the fractional digits with trailing zeros trimmed but at least
one digit kept (e.g. `900.0`, `95.5`, `95.05`). -/
def floatStr (d : Dec) : String :=
  let m := d.num.natAbs
  let p := 10 ^ d.exp
  let ip := m / p
  let fr := m % p
  let fl := trimTrailingZeros (padLeftZeros d.exp (natDigitsAux (fr + 1) fr))
  (if d.num < 0 then "-" else "") ++ natToStr ip ++ "." ++
    (if fl.isEmpty then "0" else String.mk fl)

/-- The discount configuration (`xconfig.json`): an optional brand→ratio map
under key `SP_BRAND_DC_RATIO` and an optional default ratio under key
`OTHER_BRAND_DC_RATIO`; `none` models an absent key. -/
structure DiscountConfig where
  spBrand : Option (List (String × Dec))
  otherBrand : Option Dec
deriving DecidableEq, Repr

/-- Python `dict.get(k, d)` on the brand→ratio map. -/
def lookupBrand (m : List (String × Dec)) (k : String) (d : Dec) : Dec :=
  match m.find? (fun p => p.1 == k) with
  | some p => p.2
  | none => d

/-- `brand.lower().strip() if brand else "unknown"` (app.py line 47). -/
def normalizeBrand (brand : String) : String :=
  if brand = "" then "unknown" else pyStrip (pyLower brand)

/-- The currency cleaning of app.py line 40:
`price.replace('฿','').replace('THB','').replace(',','').strip()`. -/
def cleanPrice (s : String) : String :=
  pyStrip (pyRemove "," (pyRemove "THB" (pyRemove "฿" s)))

/-- `apply_discount` (app.py lines 20–69).  A falsy or non-string price
yields the float `0.0`; a cleaning-then-`float()` failure yields the
original string (`str(price)` on a `str` is the identity); a missing config
key yields the bare parsed float; otherwise the discounted, rounded price is
returned as a string. -/
def apply_discount (price : PyVal) (brand : String) (config : DiscountConfig) : PyVal :=
  match price with
  | PyVal.float _ => PyVal.float float0
  | PyVal.str s =>
    if s = "" then PyVal.float float0
    else
      match pyFloatOfString (cleanPrice s) with
      | none => PyVal.str s
      | some p =>
        match config.spBrand, config.otherBrand with
        | some sp, some other =>
          PyVal.str (floatStr (pyRound2 (Dec.mul p (lookupBrand sp (normalizeBrand brand) other))))
        | _, _ => PyVal.float p

/-- The fixed Thai "in stock" column label of app.py line 418. -/
def thaiInStock : String := "ในสต๊อก"

/-- The stock table of a product page, as extracted text: the `th` header
cell texts and, for each `tr` row, its `td` cell texts. -/
structure StockTable where
  headers : List String
  rows : List (List String)
deriving DecidableEq, Repr

/-- The header scan of app.py lines 414–420: starting from the default
index 1, the index of the first header whose stripped text contains the
Thai "in stock" label. -/
def findStockIndexAux (i : Nat) : List String → Nat
  | [] => 1
  | h :: t =>
    if occursIn thaiInStock.data (trimChars h.data) then i else findStockIndexAux (i + 1) t

/-- The stock column index used by `check_stock`. -/
def findStockIndex (headers : List String) : Nat := findStockIndexAux 0 headers

/-- Python `s.split()`: split on whitespace runs, dropping empty tokens.
The first argument accumulates the current (reversed) token. -/
def splitWsAux (cur : List Char) : List Char → List (List Char)
  | [] => if cur.isEmpty then [] else [cur.reverse]
  | c :: cs =>
    if Char.isWhitespace c then
      if cur.isEmpty then splitWsAux [] cs else cur.reverse :: splitWsAux [] cs
    else splitWsAux (c :: cur) cs

/-- Python `s.split()` as a list of token strings. -/
def splitTokens (s : String) : List String :=
  (splitWsAux [] s.data).map String.mk

/-- The per-row body of the loop of app.py lines 423–434: if the row has a
cell at the stock column, strip it, and if non-empty parse the last
whitespace-delimited token as an `int`; a missing cell, empty text or
failed parse contributes 0. -/
def rowStock (idx : Nat) (cells : List String) : Int :=
  if idx < cells.length then
    let t := pyStrip (cells.getD idx "")
    if t = "" then 0
    else
      match (splitTokens t).getLast? with
      | none => 0
      | some tok =>
        match pyParseInt tok with
        | none => 0
        | some n => n
  else 0

/-- The stock total accumulated over a table (app.py lines 409–434). -/
def extractStockTable (table : StockTable) : Int :=
  table.rows.foldl (fun acc r => acc + rowStock (findStockIndex table.headers) r) 0

/-- The brand / sale price / regular price extracted from the search page by
`get_product_info_from_base_url` (app.py lines 316–359); every field
defaults to the empty string, and the function never raises. -/
structure SearchInfo where
  brand : String
  sale_price : String
  regular_price : String
deriving DecidableEq, Repr

/-- A successfully fetched product page: its stock table, if the page has
one. -/
structure ProductPage where
  stockTable : Option StockTable
deriving DecidableEq, Repr

/-- The observable outcome of the network activity of one `check_stock`
call: the product-page response was not ok (`response.ok` false); or it was
ok and yielded a page and the search-page info; or an exception was raised
inside the `try` block (e.g. the fetch itself raised). -/
inductive FetchOutcome where
  | notOk : FetchOutcome
  | ok : ProductPage → SearchInfo → FetchOutcome
  | exn : FetchOutcome
deriving DecidableEq, Repr

/-- One output record of `check_stock`. -/
structure ProductRecord where
  sku : String
  brand : String
  stock_quantity : Int
  stock_status : Int
  sale_price : PyVal
  regular_price : String
deriving DecidableEq, Repr

/-- The fallback discount config of app.py lines 375–378 (used when
`xconfig.json` cannot be loaded): empty brand map, default ratio 1.0. -/
def defaultXConfig : DiscountConfig := ⟨some [], some ⟨1, 0⟩⟩

/-- `check_stock` (app.py lines 361–463), with the config-file load result
and the network outcome as explicit arguments.  On a non-ok product-page
response it returns the zero record with `sale_price` the float `0.0`
(lines 386–395); on success it totals the stock table, derives
`stock_status`, and applies the discount to the scraped sale price (lines
397–453); if an exception escapes the `try` body, the handler of lines
454–463 returns the zero record with `sale_price` the empty string. -/
def check_stock (sku : String) (xconfigLoad : Option DiscountConfig)
    (outcome : FetchOutcome) : ProductRecord :=
  let xconfig := xconfigLoad.getD defaultXConfig
  match outcome with
  | FetchOutcome.notOk => ⟨sku, "", 0, 0, PyVal.float float0, ""⟩
  | FetchOutcome.exn => ⟨sku, "", 0, 0, PyVal.str "", ""⟩
  | FetchOutcome.ok page info =>
    let stock_total : Int :=
      match page.stockTable with
      | none => 0
      | some t => extractStockTable t
    ⟨sku, info.brand, stock_total, if stock_total > 0 then 1 else 0,
     apply_discount (PyVal.str info.sale_price) info.brand xconfig,
     info.regular_price⟩

/-- `get_products_data` (app.py lines 465–491): if the session is not
logged in and the login attempt fails, the empty list; otherwise one
`check_stock` record per SKU (per-call config-load result and network
outcome supplied by `env`).  `check_stock` always returns a non-empty,
truthy record, so every record is appended; the completion order of the
thread pool is modelled as submission order. -/
def get_products_data (loggedIn loginOk : Bool)
    (env : String → Option DiscountConfig × FetchOutcome)
    (sku_list : List String) : List ProductRecord :=
  if loggedIn = false ∧ loginOk = false then []
  else sku_list.map (fun sku => check_stock sku (env sku).1 (env sku).2)

/-! ### Claim-side (specification-worded) definitions for the stock table -/

/-- As the spec words it: the stock column is the index of the first header
cell whose stripped text contains the Thai "in stock" label, defaulting to
index 1 when no header matches. -/
def claimStockIndex (headers : List String) : Nat :=
  match headers.enum.find? (fun p => occursIn thaiInStock.data (trimChars p.2.data)) with
  | some p => p.1
  | none => 1

/-- As the spec words it: a row contributes the integer parsed from the
last whitespace-delimited token of the stripped text of its target cell, and
contributes zero when the cell is missing, empty or non-numeric. -/
def claimRowValue (idx : Nat) (cells : List String) : Int :=
  match (splitTokens (pyStrip (cells.getD idx ""))).getLast? with
  | none => 0
  | some tok => (pyParseInt tok).getD 0

/-! ### Helper lemmas -/

theorem foldl_add_eq_sum (f : List String → Int) (l : List (List String)) (a : Int) :
    l.foldl (fun acc r => acc + f r) a = a + (l.map f).sum := by
  induction l generalizing a with
  | nil => simp
  | cons h t ih => rw [List.foldl_cons, ih, List.map_cons, List.sum_cons, add_assoc]

theorem findStockIndexAux_eq (l : List String) (i : Nat) :
    findStockIndexAux i l =
      (match (List.enumFrom i l).find?
          (fun p => occursIn thaiInStock.data (trimChars p.2.data)) with
        | some p => p.1
        | none => 1) := by
  induction l generalizing i with
  | nil => rfl
  | cons h t ih =>
    by_cases hc : occursIn thaiInStock.data (trimChars h.data) = true
    · simp only [findStockIndexAux, hc, if_true, List.enumFrom]
      rw [List.find?_cons_of_pos _ (by simpa using hc)]
    · simp only [findStockIndexAux, hc, if_false, List.enumFrom]
      rw [List.find?_cons_of_neg _ (by simpa using hc)]
      exact ih (i + 1)

theorem claimStockIndex_eq (headers : List String) :
    claimStockIndex headers = findStockIndex headers := by
  rw [claimStockIndex, findStockIndex, findStockIndexAux_eq]
  rfl

theorem rowStock_eq_claim (idx : Nat) (cells : List String) :
    rowStock idx cells = claimRowValue idx cells := by
  unfold rowStock claimRowValue
  by_cases hlen : idx < cells.length
  · rw [if_pos hlen]
    by_cases ht : pyStrip (cells.getD idx "") = ""
    · rw [if_pos ht, ht]
      rfl
    · rw [if_neg ht]
      cases hgl : (splitTokens (pyStrip (cells.getD idx ""))).getLast? with
      | none => rfl
      | some tok => cases hp : pyParseInt tok <;> simp [hp]
  · rw [if_neg hlen, List.getD_eq_default _ _ (le_of_not_lt hlen)]
    rfl

theorem rowStock_funext (idx : Nat) : rowStock idx = claimRowValue idx :=
  funext (rowStock_eq_claim idx)

/-! ### The claims -/

/-- Counterexample to claim C1 as stated: at the empty brand, app.py
line 47 looks up the sentinel key `"unknown"` rather than the
lowercased-and-trimmed brand `""`.  With `SP_BRAND_DC_RATIO` containing
`"unknown" ↦ 0.5` and default ratio `1.0`, price `"100"` and brand `""`
the code returns `"50.0"`, while the rule stated by the claim (ratio for
key `""`, which is absent, hence the default `1.0`) gives `"100.0"`. -/
theorem empty_brand_uses_unknown_sentinel :
    apply_discount (PyVal.str "100") "" ⟨some [("unknown", ⟨5, 1⟩)], some ⟨1, 0⟩⟩ =
      PyVal.str "50.0" ∧
    PyVal.str (floatStr (pyRound2 (Dec.mul ⟨100, 0⟩
      (lookupBrand [("unknown", ⟨5, 1⟩)] (pyStrip (pyLower "")) ⟨1, 0⟩)))) =
      PyVal.str "100.0" ∧
    apply_discount (PyVal.str "100") "" ⟨some [("unknown", ⟨5, 1⟩)], some ⟨1, 0⟩⟩ ≠
      PyVal.str (floatStr (pyRound2 (Dec.mul ⟨100, 0⟩
        (lookupBrand [("unknown", ⟨5, 1⟩)] (pyStrip (pyLower "")) ⟨1, 0⟩)))) := by decide

/-- Claim C1 (amended): for every price string that, after removing `฿`,
`THB`, commas and surrounding whitespace, parses as a decimal number `p`,
and every config with both ratio keys present, `apply_discount` returns
the string rendering of `round(p * r, 2)`, where `r` is the
`SP_BRAND_DC_RATIO` entry for key `k` when present and
`OTHER_BRAND_DC_RATIO` otherwise, the lookup key `k` being the
lowercased-and-trimmed brand when the brand is non-empty and the sentinel
`"unknown"` when it is empty. -/
theorem applyDiscount_discounts (s brand : String) (sp : List (String × Dec)) (other p : Dec)
    (hs : s ≠ "") (hp : pyFloatOfString (cleanPrice s) = some p) :
    apply_discount (PyVal.str s) brand ⟨some sp, some other⟩ =
      PyVal.str (floatStr (pyRound2 (Dec.mul p (lookupBrand sp
        (if brand = "" then "unknown" else pyStrip (pyLower brand)) other)))) := by
  simp [apply_discount, hs, hp, normalizeBrand]

/-- Witness for C1 (amended): the example given in the spec,
`applyDiscount("฿1,000.00", "Acme", ...ratio 0.9...) = "900.0"`. -/
theorem applyDiscount_discounts_witness :
    (apply_discount (PyVal.str "฿1,000.00") "Acme" ⟨some [("acme", ⟨9, 1⟩)], some ⟨1, 0⟩⟩ =
      PyVal.str (floatStr (pyRound2 (Dec.mul ⟨100000, 2⟩ (lookupBrand [("acme", ⟨9, 1⟩)]
        (if "Acme" = "" then "unknown" else pyStrip (pyLower "Acme")) ⟨1, 0⟩))))) ∧
    apply_discount (PyVal.str "฿1,000.00") "Acme" ⟨some [("acme", ⟨9, 1⟩)], some ⟨1, 0⟩⟩ =
      PyVal.str "900.0" :=
  ⟨applyDiscount_discounts "฿1,000.00" "Acme" [("acme", ⟨9, 1⟩)] ⟨1, 0⟩ ⟨100000, 2⟩
    (by decide) (by decide), by decide⟩

/-- Counterexample to claim C2 as stated: with both config keys missing,
`apply_discount("100", "Acme", ...)` returns the Python float `100.0`
(line 52 returns `price_float` itself), not a string. -/
theorem missing_config_returns_float :
    apply_discount (PyVal.str "100") "Acme" ⟨none, none⟩ = PyVal.float ⟨100, 0⟩ ∧
    PyVal.isStr (apply_discount (PyVal.str "100") "Acme" ⟨none, none⟩) = false := by decide

/-- Claim C2 (amended): when the price parses as `p` but at least one of
the two ratio keys is missing from the config, `apply_discount` skips
discounting and returns the parsed price `p` as a Python float (not as a
string). -/
theorem applyDiscount_missing_keys (s brand : String) (cfg : DiscountConfig) (p : Dec)
    (hs : s ≠ "") (hp : pyFloatOfString (cleanPrice s) = some p)
    (hk : cfg.spBrand = none ∨ cfg.otherBrand = none) :
    apply_discount (PyVal.str s) brand cfg = PyVal.float p := by
  obtain ⟨a, b⟩ := cfg
  rcases hk with hk | hk <;> simp only at hk <;> subst hk
  · simp [apply_discount, hs, hp]
  · cases a <;> simp [apply_discount, hs, hp]

/-- Witness for C2 (amended) at price `"100"` with both keys missing. -/
theorem applyDiscount_missing_keys_witness :
    apply_discount (PyVal.str "100") "Acme" ⟨none, none⟩ = PyVal.float ⟨100, 0⟩ :=
  applyDiscount_missing_keys "100" "Acme" ⟨none, none⟩ ⟨100, 0⟩
    (by decide) (by decide) (Or.inl rfl)

/-- Counterexample to claim C3 as stated: on the empty price string the
function returns the Python float `0.0` (line 36), not the string `"0.0"`. -/
theorem empty_price_returns_float_zero :
    apply_discount (PyVal.str "") "Acme" ⟨some [("acme", ⟨9, 1⟩)], some ⟨1, 0⟩⟩ ≠
      PyVal.str "0.0" ∧
    apply_discount (PyVal.str "") "Acme" ⟨some [("acme", ⟨9, 1⟩)], some ⟨1, 0⟩⟩ =
      PyVal.float float0 := by decide

/-- Claim C3 (amended): for every price input that is the empty string or
not a string value, `apply_discount` returns the Python float `0.0` (not
the string `"0.0"`). -/
theorem applyDiscount_invalid_price (price : PyVal) (brand : String) (cfg : DiscountConfig)
    (h : price = PyVal.str "" ∨ ∃ d, price = PyVal.float d) :
    apply_discount price brand cfg = PyVal.float float0 := by
  rcases h with rfl | ⟨d, rfl⟩ <;> simp [apply_discount]

/-- Witness for C3 (amended) at the empty price string. -/
theorem applyDiscount_invalid_price_witness :
    apply_discount (PyVal.str "") "Acme" ⟨none, none⟩ = PyVal.float float0 :=
  applyDiscount_invalid_price (PyVal.str "") "Acme" ⟨none, none⟩ (Or.inl rfl)

/-- Claim C4: a non-empty price string whose cleaned form does not parse as
a decimal number is returned unmodified — neither an error nor zero. -/
theorem applyDiscount_unparsable (s brand : String) (cfg : DiscountConfig)
    (hs : s ≠ "") (hp : pyFloatOfString (cleanPrice s) = none) :
    apply_discount (PyVal.str s) brand cfg = PyVal.str s := by
  simp [apply_discount, hs, hp]

/-- Witness for C4: the example given in the spec `applyDiscount("N/A", ...) = "N/A"`. -/
theorem applyDiscount_unparsable_witness :
    apply_discount (PyVal.str "N/A") "Acme" ⟨some [("acme", ⟨9, 1⟩)], some ⟨1, 0⟩⟩ =
      PyVal.str "N/A" :=
  applyDiscount_unparsable "N/A" "Acme" ⟨some [("acme", ⟨9, 1⟩)], some ⟨1, 0⟩⟩
    (by decide) (by decide)

/-- Claim C5: the extracted stock total is the sum, over all data rows, of
the integer parsed from the last whitespace-delimited token of the target
cell (zero for missing/empty/non-numeric cells, which never abort the
scan), where the target column is the first header containing the Thai
"in stock" label, defaulting to index 1; in particular column values
`["10", "abc", "5"]` total 15. -/
theorem stock_total_is_row_sum :
    (∀ t : StockTable,
      extractStockTable t = (t.rows.map (claimRowValue (claimStockIndex t.headers))).sum) ∧
    extractStockTable ⟨["สาขา", "ในสต๊อก"], [["a", "10"], ["b", "abc"], ["c", "5"]]⟩ = 15 := by
  constructor
  · intro t
    rw [extractStockTable, foldl_add_eq_sum (rowStock (findStockIndex t.headers)) t.rows 0,
      zero_add, claimStockIndex_eq, rowStock_funext]
  · decide

/-- Claim C6: on every path of `check_stock` — success, non-success fetch,
and caught exception — the record satisfies
`stock_status = 1 ↔ stock_quantity > 0`. -/
theorem stock_status_iff_quantity_pos (sku : String) (cfg : Option DiscountConfig)
    (oc : FetchOutcome) :
    (check_stock sku cfg oc).stock_status = 1 ↔ (check_stock sku cfg oc).stock_quantity > 0 := by
  cases oc with
  | notOk => simp [check_stock]
  | exn => simp [check_stock]
  | ok page info =>
    dsimp only [check_stock]
    by_cases h :
        (match page.stockTable with
          | none => (0 : Int)
          | some t => extractStockTable t) > 0
    · simp [h]
    · simp [h]

/-- Counterexample to claim C7 as stated: when the product-page fetch
raises (the caught-exception path, app.py lines 454–463), the degraded
record field `sale_price` is the empty string, not the float `0.0`. -/
theorem exn_sale_price_is_empty_string :
    (check_stock "SKU1" none FetchOutcome.exn).sale_price = PyVal.str "" ∧
    PyVal.str "" ≠ PyVal.float float0 := by decide

/-- Claim C7 (amended): a non-success product-page HTTP status yields the
zero-valued record with `sale_price` the float `0.0`; a raised exception
(including a failed fetch) yields the same zero-valued record except that
`sale_price` is the empty string.  Neither path raises or fails the batch. -/
theorem degraded_record_shape (sku : String) (cfg : Option DiscountConfig) :
    check_stock sku cfg FetchOutcome.notOk = ⟨sku, "", 0, 0, PyVal.float float0, ""⟩ ∧
    check_stock sku cfg FetchOutcome.exn = ⟨sku, "", 0, 0, PyVal.str "", ""⟩ :=
  ⟨rfl, rfl⟩

/-- Counterexample to claim C8 as stated: a fetched page whose stock cell
reads `"-5"` parses (Python `int` accepts a sign) and yields the negative
stock quantity `-5`. -/
theorem negative_stock_possible :
    (check_stock "SKU1" none
        (FetchOutcome.ok ⟨some ⟨["สาขา", "ในสต๊อก"], [["a", "-5"]]⟩⟩
          ⟨"", "", ""⟩)).stock_quantity = -5 ∧
    ¬(0 ≤ (check_stock "SKU1" none
        (FetchOutcome.ok ⟨some ⟨["สาขา", "ในสต๊อก"], [["a", "-5"]]⟩⟩
          ⟨"", "", ""⟩)).stock_quantity) := by decide

/-- Claim C8 (amended): for every fetched product page, `stock_quantity`
is the integer sum across the stock rows, and it is non-negative whenever
no row contributes a negative parsed value (in particular whenever all
parsed stock tokens are non-negative). -/
theorem stock_quantity_nonneg_of_rows_nonneg (sku : String) (cfg : Option DiscountConfig)
    (page : ProductPage) (info : SearchInfo)
    (h : ∀ r ∈ (page.stockTable.getD ⟨[], []⟩).rows,
      0 ≤ rowStock (findStockIndex (page.stockTable.getD ⟨[], []⟩).headers) r) :
    0 ≤ (check_stock sku cfg (FetchOutcome.ok page info)).stock_quantity := by
  dsimp only [check_stock]
  cases hst : page.stockTable with
  | none => simp
  | some t =>
    rw [hst] at h
    simp only [Option.getD_some] at h
    simp only [extractStockTable]
    rw [foldl_add_eq_sum, zero_add]
    apply List.sum_nonneg
    intro x hx
    obtain ⟨r, hr, rfl⟩ := List.mem_map.mp hx
    exact h r hr

/-- Witness for C8 (amended): a one-row table with stock `3`. -/
theorem stock_quantity_nonneg_witness :
    0 ≤ (check_stock "A" none
        (FetchOutcome.ok ⟨some ⟨["ในสต๊อก"], [["3"]]⟩⟩ ⟨"", "", ""⟩)).stock_quantity :=
  stock_quantity_nonneg_of_rows_nonneg "A" none ⟨some ⟨["ในสต๊อก"], [["3"]]⟩⟩ ⟨"", "", ""⟩
    (by decide)

/-- Claim C9: when the session is not logged in and the login attempt
fails, `get_products_data` returns the empty list for every SKU list —
the batch fails fast with no per-SKU records. -/
theorem auth_failure_empty_batch (env : String → Option DiscountConfig × FetchOutcome)
    (sku_list : List String) :
    get_products_data false false env sku_list = [] := by
  simp [get_products_data]

/-- Claim C10: on every path of `check_stock`, the `sku`
field of the returned record equals the `sku` argument, so degraded records remain attributable. -/
theorem record_sku_matches (sku : String) (cfg : Option DiscountConfig) (oc : FetchOutcome) :
    (check_stock sku cfg oc).sku = sku := by
  cases oc <;> rfl

end KTW
